import Mathlib

set_option maxRecDepth 8192

/-
Verification of the retrieval-augmented question-answering pipeline
(src/src/main.py, src/src/graph.py, src/src/nodes/*.py).

Pure Python code under src/ is embedded directly.  The three external
collaborators (langchain's RecursiveCharacterTextSplitter, the Chroma
vector index, the language-model client) are not part of the repository
source; where a claim depends on their behaviour they are modelled from
the specification, and each such definition carries a doc comment
starting with `Modelled from the spec:`.
-/

namespace QA

/-- A unit of loaded content: an opaque text body plus string metadata,
as produced by the loaders in src/src/nodes/loaders.py (langchain
`Document`: `page_content`, `metadata`). -/
structure Document where
  page_content : String
  metadata : List (String × String)
deriving DecidableEq, Repr

/-- Modelled from the spec: the core windowing of langchain's
`RecursiveCharacterTextSplitter` (library code, not under src/).
Spec §4.2/§8: pieces of at most `chunkSize` characters, each new chunk
advancing by `step = chunkSize - chunkOverlap` characters so that
consecutive chunks of one document share exactly `chunkOverlap`
characters of the un-split text.  `fuel` is a structural recursion
bound; callers pass the text length, which suffices whenever
`0 < step`. -/
def windowsAux (chunkSize step : Nat) : Nat → List Char → List (List Char)
  | 0, _ => []
  | fuel + 1, cs =>
    if cs.isEmpty then []
    else if cs.length ≤ chunkSize then [cs]
    else cs.take chunkSize :: windowsAux chunkSize step fuel (cs.drop step)

/-- Modelled from the spec: split one text body into overlapping
windows of at most `chunk_size` characters (spec §4.2). -/
def split_text (chunk_size chunk_overlap : Nat) (t : String) : List String :=
  (windowsAux chunk_size (chunk_size - chunk_overlap) t.data.length t.data).map
    (fun cs => String.mk cs)

/-- Error message for an invalid chunking configuration
(spec §4.2: `chunk_size <= 0` or `chunk_overlap >= chunk_size` is a
configuration error and must fail fast). -/
def configErrorMsg (chunk_size chunk_overlap : Int) : String :=
  "Invalid chunking configuration: chunk_size=" ++ toString chunk_size ++
    " chunk_overlap=" ++ toString chunk_overlap

/-- `split_documents` from src/src/nodes/text_splitter.py.  The function
itself delegates to langchain's `RecursiveCharacterTextSplitter`
(library code, not under src/); the splitting and the fail-fast
validation are modelled from the spec (§4.2).  Chunks retain the parent
document's metadata, in input-document order then chunk order. -/
def split_documents (documents : List Document) (chunk_size chunk_overlap : Int) :
    Except String (List Document) :=
  if chunk_size ≤ 0 ∨ chunk_overlap < 0 ∨ chunk_size ≤ chunk_overlap then
    .error (configErrorMsg chunk_size chunk_overlap)
  else
    .ok (documents.flatMap (fun d =>
      (split_text chunk_size.toNat chunk_overlap.toNat d.page_content).map
        (fun t => { page_content := t, metadata := d.metadata })))

/-- External collaborators of the pipeline: the three raw loaders
behind src/src/nodes/loaders.py, the embedding model behind
src/src/nodes/vector_store.py, and the language-model client behind
src/src/nodes/answer_node.py.  Each is a fallible call (a Python call
that may raise). -/
structure Collaborators where
  loadWeb : String → Except String (List Document)
  loadPdf : String → Except String (List Document)
  loadTextFile : String → Except String (List Document)
  embed : String → Except String (List Int)
  llm : String → Except String String

/-- `_load_web_content` from src/src/nodes/loaders.py: delegates to the
web loader and wraps any failure with context, re-raising it. -/
def load_web_content (C : Collaborators) (url : String) :
    Except String (List Document) :=
  match C.loadWeb url with
  | .ok docs => .ok docs
  | .error e => .error ("Failed to load web content from " ++ url ++ ": " ++ e)

/-- `_load_pdf_content` from src/src/nodes/loaders.py. -/
def load_pdf_content (C : Collaborators) (file_path : String) :
    Except String (List Document) :=
  match C.loadPdf file_path with
  | .ok docs => .ok docs
  | .error e => .error ("Failed to load PDF content from " ++ file_path ++ ": " ++ e)

/-- `_load_text_file_content` from src/src/nodes/loaders.py. -/
def load_text_file_content (C : Collaborators) (file_path : String) :
    Except String (List Document) :=
  match C.loadTextFile file_path with
  | .ok docs => .ok docs
  | .error e =>
    .error ("Failed to load text file content from " ++ file_path ++ ": " ++ e)

/-- `load_content` from src/src/nodes/loaders.py: dispatch on the
source-type tag; an unsupported tag raises `ValueError` naming it. -/
def load_content (C : Collaborators) (input_type content : String) :
    Except String (List Document) :=
  if input_type = "url" then load_web_content C content
  else if input_type = "pdf" then load_pdf_content C content
  else if input_type = "textfile" then load_text_file_content C content
  else if input_type = "text" then
    .ok [{ page_content := content, metadata := [("source", "direct_text")] }]
  else .error ("Unsupported input type: " ++ input_type)

/-- Modelled from the spec: the vector index (Chroma, library code not
under src/) stores each chunk together with its embedding vector
(spec §4.3: `build(chunks)` embeds every chunk once). -/
structure VectorStore where
  entries : List (Document × List Int)
deriving Repr

/-- Dot-product similarity between two embedding vectors. -/
def dot : List Int → List Int → Int
  | a :: as, b :: bs => a * b + dot as bs
  | _, _ => 0

/-- Embed every document, pairing it with its vector; fails if any
embedding call fails. -/
def embedAll (C : Collaborators) : List Document →
    Except String (List (Document × List Int))
  | [] => .ok []
  | d :: ds =>
    match C.embed d.page_content with
    | .error e => .error e
    | .ok v =>
      match embedAll C ds with
      | .error e => .error e
      | .ok rest => .ok ((d, v) :: rest)

/-- `create_vector_store` from src/src/nodes/vector_store.py.  Modelled
from the spec: Chroma's `from_documents` (library code, not under src/)
embeds every chunk and stores vectors with chunk text and metadata
(spec §4.3). -/
def create_vector_store (C : Collaborators) (documents : List Document) :
    Except String VectorStore :=
  (embedAll C documents).map VectorStore.mk

/-- `search_relevant_chunks` from src/src/nodes/vector_store.py.
Modelled from the spec: Chroma's `similarity_search` (library code, not
under src/) embeds only the query, scores the stored vectors against
it, and returns the `k` most similar stored chunks in non-increasing
similarity order (spec §4.4); the stable insertion sort makes ties
deterministic. -/
def search_relevant_chunks (C : Collaborators) (store : VectorStore)
    (question : String) (k : Nat) : Except String (List Document) :=
  (C.embed question).map (fun qv =>
    ((store.entries.insertionSort
      (fun e1 e2 => dot qv e2.2 ≤ dot qv e1.2)).map Prod.fst).take k)

/-- Similarity of a stored chunk to an embedded query: the dot product
of the query vector with the chunk's own embedding (zero if the chunk
has no embedding). -/
def simScore (C : Collaborators) (qv : List Int) (d : Document) : Int :=
  match C.embed d.page_content with
  | .ok v => dot qv v
  | .error _ => 0

/-- The verbatim fallback phrase from `ANSWER_QUESTION_PROMPT`
(src/src/nodes/answer_node.py). -/
def fallback_phrase : String :=
  "I don't have enough information in the provided document to answer this question."

/-- `ANSWER_QUESTION_PROMPT` from src/src/nodes/answer_node.py with its
three template variables substituted. -/
def ANSWER_QUESTION_PROMPT (context question answer_length_instruction : String) :
    String :=
  "\nUse ONLY the following relevant context to answer the question. \nIf the context does not contain enough information to answer the question, say \"I don't have enough information in the provided document to answer this question.\"\nDo not use any external knowledge or make assumptions beyond what is stated in the context.\nKeep the answer concise and factual.\n\nRelevant Context: "
    ++ context ++ "\n\nQuestion: " ++ question ++ "\n\n"
    ++ answer_length_instruction ++ "\n"

/-- The length instruction of src/src/nodes/answer_node.py lines 54-56:
`if max_answer_length:` is Python truthiness, so `None` and `0` both
yield the empty instruction. -/
def answer_length_instruction (max_answer_length : Option Int) : String :=
  match max_answer_length with
  | none => ""
  | some n =>
    if n = 0 then ""
    else "Answer in no more than " ++ toString n ++ " sentences."

/-- `answer_question_node` from src/src/nodes/answer_node.py: joins the
chunk texts with a blank line, formats the prompt, issues one
language-model call and returns its response unmodified. -/
def answer_question_node (C : Collaborators) (relevant_chunks : List Document)
    (question : String) (max_answer_length : Option Int) : Except String String :=
  C.llm (ANSWER_QUESTION_PROMPT
    (String.intercalate "\n\n" (relevant_chunks.map Document.page_content))
    question (answer_length_instruction max_answer_length))

/-- The state schema of src/src/graph.py (`GraphState`). -/
structure GraphState where
  input_type : String
  content : String
  question : String
  documents : List Document
  chunks : List Document
  relevant_chunks : List Document
  final_answer : String
  chunk_size : Int
  chunk_overlap : Int
  max_answer_length : Option Int
  vector_store : Option VectorStore

/-- `load_content_node` from src/src/graph.py. -/
def load_content_node (C : Collaborators) (st : GraphState) :
    Except String GraphState :=
  (load_content C st.input_type st.content).map
    (fun docs => { st with documents := docs })

/-- `split_documents_node` from src/src/graph.py. -/
def split_documents_node (st : GraphState) : Except String GraphState :=
  (split_documents st.documents st.chunk_size st.chunk_overlap).map
    (fun ch => { st with chunks := ch })

/-- `create_vector_store_node` from src/src/graph.py. -/
def create_vector_store_node (C : Collaborators) (st : GraphState) :
    Except String GraphState :=
  (create_vector_store C st.chunks).map
    (fun vs => { st with vector_store := some vs })

/-- `search_relevant_chunks_node` from src/src/graph.py: searches with
`k = 4` and stores only `relevant_chunks` in the state. -/
def search_relevant_chunks_node (C : Collaborators) (st : GraphState) :
    Except String GraphState :=
  match st.vector_store with
  | none => .error "vector store not initialized"
  | some vs =>
    (search_relevant_chunks C vs st.question 4).map
      (fun rc => { st with relevant_chunks := rc })

/-- `answer_question_node_wrapper` from src/src/graph.py. -/
def answer_question_node_wrapper (C : Collaborators) (st : GraphState) :
    Except String GraphState :=
  (answer_question_node C st.relevant_chunks st.question st.max_answer_length).map
    (fun a => { st with final_answer := a })

/-- The compiled five-node chain of `create_graph` (src/src/graph.py
lines 85-112): load → split → index → retrieve → answer, executed in
order, each node's partial update merged into the state. -/
def runPipeline (C : Collaborators) (st : GraphState) :
    Except String GraphState := do
  let st1 ← load_content_node C st
  let st2 ← split_documents_node st1
  let st3 ← create_vector_store_node C st2
  let st4 ← search_relevant_chunks_node C st3
  answer_question_node_wrapper C st4

/-- The environment variables read by the program. -/
structure Env where
  CHUNK_SIZE : Option Int
  CHUNK_OVERLAP : Option Int
  OPENROUTER_API_KEY : Option String

/-- `answer_question_with_graph` from src/src/graph.py: resolves unset
(`None`) chunk parameters from the environment (defaults 500 / 50),
builds the initial state and runs the graph, returning `final_answer`. -/
def answer_question_with_graph (C : Collaborators) (env : Env)
    (input_type content question : String)
    (chunk_size chunk_overlap max_answer_length : Option Int) :
    Except String String :=
  (runPipeline C
    { input_type := input_type, content := content, question := question,
      documents := [], chunks := [], relevant_chunks := [],
      final_answer := "",
      chunk_size := chunk_size.getD (env.CHUNK_SIZE.getD 500),
      chunk_overlap := chunk_overlap.getD (env.CHUNK_OVERLAP.getD 50),
      max_answer_length := max_answer_length, vector_store := none }).map
    (fun st => st.final_answer)

/-- Parsed command-line arguments of src/src/main.py (after argparse). -/
structure Args where
  url : Option String
  pdf : Option String
  textfile : Option String
  text : Option String
  question : String
  chunk_size : Option Int
  chunk_overlap : Option Int
  max_answer_length : Option Int

/-- Python truthiness of an optional string (`if args.url:`). -/
def strTruthy : Option String → Bool
  | some s => !s.isEmpty
  | none => false

/-- The source-type tag main.py derives from the argument flags
(lines 52-74); when every source flag is falsy the Python variable
stays `None`, which interpolates as the string "None" downstream. -/
def inputTypeOf (args : Args) : String :=
  if strTruthy args.url then "url"
  else if strTruthy args.pdf then "pdf"
  else if strTruthy args.textfile then "textfile"
  else if strTruthy args.text then "text"
  else "None"

/-- The content value main.py pairs with the source-type tag. -/
def contentOf (args : Args) : String :=
  if strTruthy args.url then (args.url.getD "")
  else if strTruthy args.pdf then (args.pdf.getD "")
  else if strTruthy args.textfile then (args.textfile.getD "")
  else if strTruthy args.text then (args.text.getD "")
  else "None"

/-- Python `a or b` on an optional integer (main.py lines 77-78):
`None` and `0` are both falsy, so either selects the default. -/
def pyOrInt (a : Option Int) (b : Int) : Int :=
  match a with
  | none => b
  | some v => if v = 0 then b else v

/-- main.py line 77: `chunk_size = args.chunk_size or int(os.getenv("CHUNK_SIZE", 500))`. -/
def resolveChunkSize (arg : Option Int) (env : Env) : Int :=
  pyOrInt arg (env.CHUNK_SIZE.getD 500)

/-- main.py line 78: `chunk_overlap = args.chunk_overlap or int(os.getenv("CHUNK_OVERLAP", 50))`. -/
def resolveChunkOverlap (arg : Option Int) (env : Env) : Int :=
  pyOrInt arg (env.CHUNK_OVERLAP.getD 50)

/-- Observable outcome of one batch run: process exit code, the answer
printed on success, the error message printed on failure. -/
structure RunOutcome where
  exitCode : Nat
  answer : Option String
  errorMsg : Option String
deriving DecidableEq, Repr

/-- `main` from src/src/main.py: validates file-based sources, resolves
chunk parameters with Python `or`, checks the API key, runs the
pipeline, and either prints the answer (exit 0) or prints the error and
exits 1. -/
def mainRun (C : Collaborators) (fileExists : String → Bool) (env : Env)
    (args : Args) : RunOutcome :=
  if inputTypeOf args = "pdf" ∧ ¬ fileExists (contentOf args) then
    ⟨1, none, some ("Error: PDF file '" ++ contentOf args ++ "' not found")⟩
  else if inputTypeOf args = "textfile" ∧ ¬ fileExists (contentOf args) then
    ⟨1, none, some ("Error: Text file '" ++ contentOf args ++ "' not found")⟩
  else if env.OPENROUTER_API_KEY = none then
    ⟨1, none, some "Error: OPENROUTER_API_KEY environment variable is not set"⟩
  else
    match answer_question_with_graph C env (inputTypeOf args) (contentOf args)
      args.question (some (resolveChunkSize args.chunk_size env))
      (some (resolveChunkOverlap args.chunk_overlap env))
      args.max_answer_length with
    | .ok a => ⟨0, some a, none⟩
    | .error e => ⟨1, none, some ("Error: " ++ e)⟩

/-- Every window emitted by `windowsAux` has at most `chunkSize` characters. -/
theorem windowsAux_length_le (chunkSize step : Nat) :
    ∀ (fuel : Nat) (cs : List Char), ∀ w ∈ windowsAux chunkSize step fuel cs,
      w.length ≤ chunkSize := by
  intro fuel
  induction fuel with
  | zero => intro cs w hw; simp [windowsAux] at hw
  | succ n ih =>
    intro cs w hw
    simp only [windowsAux] at hw
    split at hw
    · simp at hw
    · split at hw
      · rename_i hlen
        simp only [List.mem_singleton] at hw
        subst hw; exact hlen
      · simp only [List.mem_cons] at hw
        rcases hw with h1 | h2
        · subst h1
          simp [List.length_take]
        · exact ih _ w h2

/-- The first window emitted from `cs` starts with the same `m ≤ chunkSize`
characters as `cs` itself. -/
theorem windowsAux_head_take (chunkSize step : Nat) (fuel : Nat) (cs : List Char)
    (w : List Char) (m : Nat) (hm : m ≤ chunkSize)
    (h : (windowsAux chunkSize step fuel cs).head? = some w) :
    w.take m = cs.take m := by
  cases fuel with
  | zero => simp [windowsAux] at h
  | succ n =>
    simp only [windowsAux] at h
    split at h
    · simp at h
    · split at h
      · simp only [List.head?_cons, Option.some.injEq] at h
        subst h; rfl
      · simp only [List.head?_cons, Option.some.injEq] at h
        subst h
        rw [List.take_take, Nat.min_eq_left hm]

/-- Consecutive windows of one text overlap by exactly
`chunkSize - step` characters: the trailing overlap of the earlier
window equals the leading overlap of the later window. -/
theorem windowsAux_chain (chunkSize step : Nat) (hstep : 0 < step)
    (hsk : step ≤ chunkSize) :
    ∀ (fuel : Nat) (cs : List Char),
      List.Chain'
        (fun a b => a.drop (a.length - (chunkSize - step)) =
          b.take (chunkSize - step))
        (windowsAux chunkSize step fuel cs) := by
  intro fuel
  induction fuel with
  | zero => intro cs; simp [windowsAux]
  | succ n ih =>
    intro cs
    simp only [windowsAux]
    split
    · simp
    · split
      · simp
      · rename_i hemp hlen
        rw [List.chain'_cons']
        refine ⟨?_, ih _⟩
        intro w hw
        have hw' := windowsAux_head_take chunkSize step n (cs.drop step) w
          (chunkSize - step) (Nat.sub_le _ _) hw
        rw [hw']
        have hlt : chunkSize < cs.length := Nat.lt_of_not_le hlen
        have hfull : (cs.take chunkSize).length = chunkSize := by
          rw [List.length_take]; omega
        rw [hfull]
        have hss : chunkSize - (chunkSize - step) = step := by omega
        rw [hss, List.drop_take]

/-- C2: the output of `split_documents` is the per-document
concatenation of each document's chunk list, and inside one document's
chunk list every pair of consecutive chunks overlaps by exactly
`chunk_overlap` characters of the un-split text: the trailing
`chunk_overlap` characters of the earlier chunk equal the leading
`chunk_overlap` characters of the later chunk. -/
theorem split_documents_consecutive_overlap (documents : List Document)
    (chunk_size chunk_overlap : Int) (h1 : 0 < chunk_size)
    (h2 : 0 ≤ chunk_overlap) (h3 : chunk_overlap < chunk_size) :
    ∃ out, split_documents documents chunk_size chunk_overlap = .ok out ∧
      out = documents.flatMap (fun d =>
        (split_text chunk_size.toNat chunk_overlap.toNat d.page_content).map
          (fun t => { page_content := t, metadata := d.metadata })) ∧
      ∀ d ∈ documents,
        List.Chain'
          (fun a b =>
            a.page_content.data.drop (a.page_content.length - chunk_overlap.toNat) =
              b.page_content.data.take chunk_overlap.toNat)
          ((split_text chunk_size.toNat chunk_overlap.toNat d.page_content).map
            (fun t => ({ page_content := t, metadata := d.metadata } : Document))) := by
  refine ⟨_, by rw [split_documents, if_neg (by omega)], rfl, ?_⟩
  intro d _
  rw [List.chain'_map]
  unfold split_text
  rw [List.chain'_map]
  have hco : chunk_size.toNat - (chunk_size.toNat - chunk_overlap.toNat) =
      chunk_overlap.toNat := by omega
  have hstep : 0 < chunk_size.toNat - chunk_overlap.toNat := by omega
  have hchain := windowsAux_chain chunk_size.toNat
    (chunk_size.toNat - chunk_overlap.toNat) hstep (Nat.sub_le _ _)
    d.page_content.data.length d.page_content.data
  rw [hco] at hchain
  exact hchain

/-- A trivial collaborator bundle used to instantiate theorems at
concrete inputs: loaders return no documents, the embedding returns the
empty vector, and the language model echoes its prompt. -/
def noopCollaborators : Collaborators :=
  ⟨fun _ => .ok [], fun _ => .ok [], fun _ => .ok [], fun _ => .ok [],
    fun s => .ok s⟩

/-- Successful `Except.map` comes from a successful computation. -/
theorem except_map_ok {α β : Type} {f : α → β} {x : Except String α} {y : β}
    (h : x.map f = .ok y) : ∃ a, x = .ok a ∧ y = f a := by
  cases x with
  | error e => simp [Except.map] at h
  | ok a => exact ⟨a, rfl, by simpa [Except.map] using h.symm⟩

/-- Reduction of `Except` bind on an error. -/
theorem exceptBind_error {α β : Type} (e : String) (f : α → Except String β) :
    (Except.error e >>= f) = .error e := rfl

/-- Reduction of `Except` bind on a success. -/
theorem exceptBind_ok {α β : Type} (a : α) (f : α → Except String β) :
    (Except.ok a >>= f) = f a := rfl

/-- An error in the load stage aborts the whole pipeline with the same
error. -/
theorem runPipeline_load_error (C : Collaborators) (st : GraphState) (e : String)
    (h : load_content_node C st = .error e) : runPipeline C st = .error e := by
  rw [runPipeline, h, exceptBind_error]

/-- An error in the split stage aborts the whole pipeline with the same
error. -/
theorem runPipeline_split_error (C : Collaborators) (st st1 : GraphState)
    (e : String) (h1 : load_content_node C st = .ok st1)
    (h2 : split_documents_node st1 = .error e) : runPipeline C st = .error e := by
  rw [runPipeline, h1, exceptBind_ok, h2, exceptBind_error]

/-- An error in the indexing stage aborts the whole pipeline with the
same error. -/
theorem runPipeline_index_error (C : Collaborators) (st st1 st2 : GraphState)
    (e : String) (h1 : load_content_node C st = .ok st1)
    (h2 : split_documents_node st1 = .ok st2)
    (h3 : create_vector_store_node C st2 = .error e) :
    runPipeline C st = .error e := by
  rw [runPipeline, h1, exceptBind_ok, h2, exceptBind_ok, h3, exceptBind_error]

/-- An error in the retrieval stage aborts the whole pipeline with the
same error. -/
theorem runPipeline_search_error (C : Collaborators) (st st1 st2 st3 : GraphState)
    (e : String) (h1 : load_content_node C st = .ok st1)
    (h2 : split_documents_node st1 = .ok st2)
    (h3 : create_vector_store_node C st2 = .ok st3)
    (h4 : search_relevant_chunks_node C st3 = .error e) :
    runPipeline C st = .error e := by
  rw [runPipeline, h1, exceptBind_ok, h2, exceptBind_ok, h3, exceptBind_ok, h4,
    exceptBind_error]

/-- An error in the synthesis stage aborts the whole pipeline with the
same error. -/
theorem runPipeline_answer_error (C : Collaborators) (st st1 st2 st3 st4 : GraphState)
    (e : String) (h1 : load_content_node C st = .ok st1)
    (h2 : split_documents_node st1 = .ok st2)
    (h3 : create_vector_store_node C st2 = .ok st3)
    (h4 : search_relevant_chunks_node C st3 = .ok st4)
    (h5 : answer_question_node_wrapper C st4 = .error e) :
    runPipeline C st = .error e := by
  rw [runPipeline, h1, exceptBind_ok, h2, exceptBind_ok, h3, exceptBind_ok, h4,
    exceptBind_ok, h5]

/-- C1: for every list of documents and all valid parameters
`chunk_size > 0` and `0 ≤ chunk_overlap < chunk_size`, `split_documents`
succeeds and every chunk it produces has text length at most
`chunk_size`. -/
theorem split_documents_chunk_length_le (documents : List Document)
    (chunk_size chunk_overlap : Int) (h1 : 0 < chunk_size)
    (h2 : 0 ≤ chunk_overlap) (h3 : chunk_overlap < chunk_size) :
    ∃ out, split_documents documents chunk_size chunk_overlap = .ok out ∧
      ∀ c ∈ out, (c.page_content.length : Int) ≤ chunk_size := by
  refine ⟨_, by rw [split_documents, if_neg (by omega)], ?_⟩
  intro c hc
  simp only [List.mem_flatMap, List.mem_map] at hc
  obtain ⟨d, _, t, ht, rfl⟩ := hc
  simp only [split_text, List.mem_map] at ht
  obtain ⟨w, hw, rfl⟩ := ht
  have := windowsAux_length_le chunk_size.toNat
    (chunk_size.toNat - chunk_overlap.toNat) d.page_content.data.length
    d.page_content.data w hw
  have hlen : (String.mk w).length = w.length := rfl
  simp only [hlen]
  omega

/-- Witness for C1 at a concrete input. -/
theorem split_documents_chunk_length_le_witness :
    ∃ out, split_documents [⟨"hello world", []⟩] 5 2 = .ok out ∧
      ∀ c ∈ out, (c.page_content.length : Int) ≤ 5 :=
  split_documents_chunk_length_le [⟨"hello world", []⟩] 5 2 (by decide)
    (by decide) (by decide)

/-- Witness for C2 at a concrete input. -/
theorem split_documents_consecutive_overlap_witness :
    ∃ out, split_documents [⟨"hello world", []⟩] 5 2 = .ok out ∧
      out = ([⟨"hello world", []⟩] : List Document).flatMap (fun d =>
        (split_text 5 2 d.page_content).map
          (fun t => { page_content := t, metadata := d.metadata })) ∧
      ∀ d ∈ [(⟨"hello world", []⟩ : Document)],
        List.Chain'
          (fun a b =>
            a.page_content.data.drop (a.page_content.length - 2) =
              b.page_content.data.take 2)
          ((split_text 5 2 d.page_content).map
            (fun t => ({ page_content := t, metadata := d.metadata } : Document))) :=
  split_documents_consecutive_overlap [⟨"hello world", []⟩] 5 2 (by decide)
    (by decide) (by decide)

/-- C3: whenever `chunk_size ≤ 0` or `chunk_overlap ≥ chunk_size`, the
chunker rejects the configuration with an error (it neither clamps the
parameters nor returns chunks), and a pipeline run whose load stage
succeeded aborts with that configuration error — independently of the
embedding, indexing and language-model collaborators, which are
therefore never consulted. -/
theorem split_documents_invalid_config_fails_fast
    (chunk_size chunk_overlap : Int)
    (h : chunk_size ≤ 0 ∨ chunk_overlap ≥ chunk_size) :
    (∀ documents, split_documents documents chunk_size chunk_overlap =
      .error (configErrorMsg chunk_size chunk_overlap)) ∧
    (∀ (C : Collaborators) (st st1 : GraphState),
      st.chunk_size = chunk_size → st.chunk_overlap = chunk_overlap →
      load_content_node C st = .ok st1 →
      runPipeline C st = .error (configErrorMsg chunk_size chunk_overlap)) := by
  constructor
  · intro documents
    rw [split_documents, if_pos (by omega)]
  · intro C st st1 hcs hco hload
    obtain ⟨docs, -, hst1⟩ := except_map_ok hload
    apply runPipeline_split_error C st st1 _ hload
    rw [split_documents_node, hst1]
    have hfields : (({ st with documents := docs } : GraphState).chunk_size =
        chunk_size) ∧ (({ st with documents := docs } : GraphState).chunk_overlap =
        chunk_overlap) := ⟨hcs, hco⟩
    rw [hfields.1, hfields.2, split_documents, if_pos (by omega)]
    rfl

/-- Witness for C3 at a concrete input. -/
theorem split_documents_invalid_config_fails_fast_witness :
    runPipeline
      ⟨fun _ => .ok [⟨"t", []⟩], fun _ => .ok [], fun _ => .ok [],
        fun _ => .ok [], fun s => .ok s⟩
      ⟨"url", "u", "q", [], [], [], "", 5, 5, none, none⟩ =
      .error (configErrorMsg 5 5) :=
  (split_documents_invalid_config_fails_fast 5 5 (by decide)).2
    ⟨fun _ => .ok [⟨"t", []⟩], fun _ => .ok [], fun _ => .ok [],
      fun _ => .ok [], fun s => .ok s⟩
    ⟨"url", "u", "q", [], [], [], "", 5, 5, none, none⟩
    ⟨"url", "u", "q", [⟨"t", []⟩], [], [], "", 5, 5, none, none⟩
    rfl rfl rfl

/-- C7: chunking is deterministic — two runs of `split_documents` on the
same documents with the same parameters return identical results. -/
theorem split_documents_deterministic (documents : List Document)
    (chunk_size chunk_overlap : Int) (r1 r2 : Except String (List Document))
    (h1 : split_documents documents chunk_size chunk_overlap = r1)
    (h2 : split_documents documents chunk_size chunk_overlap = r2) :
    r1 = r2 :=
  h1.symm.trans h2

/-- Witness for C7 at a concrete input. -/
theorem split_documents_deterministic_witness :
    (Except.ok [⟨"hello", []⟩, ⟨"lo wo", []⟩, ⟨"world", []⟩] :
      Except String (List Document)) =
    .ok [⟨"hello", []⟩, ⟨"lo wo", []⟩, ⟨"world", []⟩] :=
  split_documents_deterministic [⟨"hello world", []⟩] 5 2 _ _ rfl rfl

/-- C5 counterexample: the source (src/src/nodes/answer_node.py line 55)
tests `if max_answer_length:` with Python truthiness, so an explicit
`max_answer_length = 0` produces no length instruction and yields
exactly the same synthesis prompt and call as an absent value —
refuting the clause that only absence may be treated as
"no constraint". -/
theorem answer_zero_treated_as_absent :
    answer_length_instruction (some 0) = "" ∧
    answer_question_node noopCollaborators [] "q" (some 0) =
      answer_question_node noopCollaborators [] "q" none :=
  ⟨rfl, rfl⟩

/-- C5 (amended): an absent `max_answer_length` produces no length
instruction, a zero value also produces no length instruction (Python
truthiness), and any nonzero value `N` produces an instruction
referencing exactly `N` sentences, embedded in the single synthesis
prompt. -/
theorem answer_length_instruction_spec (C : Collaborators)
    (relevant_chunks : List Document) (question : String)
    (max_answer_length : Option Int) :
    (max_answer_length = none → answer_length_instruction max_answer_length = "") ∧
    (max_answer_length = some 0 → answer_length_instruction max_answer_length = "") ∧
    (∀ n : Int, max_answer_length = some n → n ≠ 0 →
      answer_length_instruction max_answer_length =
        "Answer in no more than " ++ toString n ++ " sentences.") ∧
    answer_question_node C relevant_chunks question max_answer_length =
      C.llm (ANSWER_QUESTION_PROMPT
        (String.intercalate "\n\n" (relevant_chunks.map Document.page_content))
        question (answer_length_instruction max_answer_length)) := by
  refine ⟨?_, ?_, ?_, rfl⟩
  · rintro rfl; rfl
  · rintro rfl; rfl
  · rintro n rfl hn
    simp [answer_length_instruction, hn]

/-- Witness for the amended C5 at a concrete input. -/
theorem answer_length_instruction_spec_witness :
    answer_length_instruction (some 3) =
      "Answer in no more than " ++ toString (3 : Int) ++ " sentences." :=
  (answer_length_instruction_spec noopCollaborators [] "q" (some 3)).2.2.1 3
    rfl (by decide)

/-- C6: `answer_question_node` issues exactly one language-model call
whose prompt is built from the chunk texts joined in retrieval order by
a blank line, returns the model's response unmodified, and the prompt
names the verbatim fallback phrase. -/
theorem answer_question_node_contract (C : Collaborators)
    (relevant_chunks : List Document) (question : String)
    (max_answer_length : Option Int) :
    answer_question_node C relevant_chunks question max_answer_length =
      C.llm (ANSWER_QUESTION_PROMPT
        (String.intercalate "\n\n" (relevant_chunks.map Document.page_content))
        question (answer_length_instruction max_answer_length)) ∧
    ∃ pre post,
      ANSWER_QUESTION_PROMPT
        (String.intercalate "\n\n" (relevant_chunks.map Document.page_content))
        question (answer_length_instruction max_answer_length) =
        pre ++ fallback_phrase ++ post := by
  refine ⟨rfl,
    "\nUse ONLY the following relevant context to answer the question. \nIf the context does not contain enough information to answer the question, say \"",
    "\"\nDo not use any external knowledge or make assumptions beyond what is stated in the context.\nKeep the answer concise and factual.\n\nRelevant Context: "
      ++ String.intercalate "\n\n" (relevant_chunks.map Document.page_content)
      ++ "\n\nQuestion: " ++ question ++ "\n\n"
      ++ answer_length_instruction max_answer_length ++ "\n", ?_⟩
  have h : ("\nUse ONLY the following relevant context to answer the question. \nIf the context does not contain enough information to answer the question, say \"I don't have enough information in the provided document to answer this question.\"\nDo not use any external knowledge or make assumptions beyond what is stated in the context.\nKeep the answer concise and factual.\n\nRelevant Context: " : String) =
      "\nUse ONLY the following relevant context to answer the question. \nIf the context does not contain enough information to answer the question, say \"" ++ fallback_phrase ++ "\"\nDo not use any external knowledge or make assumptions beyond what is stated in the context.\nKeep the answer concise and factual.\n\nRelevant Context: " := by
    decide
  rw [ANSWER_QUESTION_PROMPT, h]
  simp only [String.append_assoc]

/-- C9: `load_content` rejects every unsupported source-type tag with an
error naming the tag — making the whole pipeline run fail with that
error — and dispatches each supported tag to its corresponding
loader. -/
theorem load_content_unsupported_type (C : Collaborators)
    (input_type content : String) (h1 : input_type ≠ "url")
    (h2 : input_type ≠ "pdf") (h3 : input_type ≠ "textfile")
    (h4 : input_type ≠ "text") :
    load_content C input_type content =
      .error ("Unsupported input type: " ++ input_type) ∧
    (∀ c, load_content C "url" c = load_web_content C c) ∧
    (∀ c, load_content C "pdf" c = load_pdf_content C c) ∧
    (∀ c, load_content C "textfile" c = load_text_file_content C c) ∧
    (∀ c, load_content C "text" c =
      .ok [{ page_content := c, metadata := [("source", "direct_text")] }]) ∧
    (∀ st : GraphState, st.input_type = input_type →
      runPipeline C st = .error ("Unsupported input type: " ++ input_type)) := by
  have hload : ∀ c, load_content C input_type c =
      .error ("Unsupported input type: " ++ input_type) := by
    intro c
    rw [load_content, if_neg h1, if_neg h2, if_neg h3, if_neg h4]
  refine ⟨hload content, fun c => rfl, fun c => rfl, fun c => rfl,
    fun c => rfl, ?_⟩
  intro st hst
  apply runPipeline_load_error
  rw [load_content_node, hst, hload]
  rfl

/-- Witness for C9 at a concrete input. -/
theorem load_content_unsupported_type_witness :
    load_content noopCollaborators "json" "c" =
      .error ("Unsupported input type: " ++ "json") :=
  (load_content_unsupported_type noopCollaborators "json" "c" (by decide)
    (by decide) (by decide) (by decide)).1

/-- C10: in the batch entry point an explicit `0` for `--chunk-size` or
`--chunk-overlap` is swallowed by Python `or` truthiness
(src/src/main.py lines 77-78): it resolves exactly as an absent option
does, to the environment default (500 / 50 when the variables are
unset), and the whole run behaves identically to a run without the
option. -/
theorem main_zero_chunk_args_use_env_default (env : Env) :
    resolveChunkSize (some 0) env = resolveChunkSize none env ∧
    resolveChunkOverlap (some 0) env = resolveChunkOverlap none env ∧
    (env.CHUNK_SIZE = none → resolveChunkSize (some 0) env = 500) ∧
    (env.CHUNK_OVERLAP = none → resolveChunkOverlap (some 0) env = 50) ∧
    (∀ (C : Collaborators) (fileExists : String → Bool) (args : Args),
      mainRun C fileExists env { args with chunk_overlap := some 0 } =
        mainRun C fileExists env { args with chunk_overlap := none }) ∧
    (∀ (C : Collaborators) (fileExists : String → Bool) (args : Args),
      mainRun C fileExists env { args with chunk_size := some 0 } =
        mainRun C fileExists env { args with chunk_size := none }) := by
  refine ⟨rfl, rfl, ?_, ?_, ?_, ?_⟩
  · intro h; rw [resolveChunkSize, h]; rfl
  · intro h; rw [resolveChunkOverlap, h]; rfl
  · intro C fe args; rfl
  · intro C fe args; rfl

/-- Witness for C10 at a concrete input. -/
theorem main_zero_chunk_args_use_env_default_witness :
    resolveChunkOverlap (some 0) ⟨none, none, some "key"⟩ = 50 :=
  (main_zero_chunk_args_use_env_default ⟨none, none, some "key"⟩).2.2.2.1 rfl

/-- A successful `embedAll` pairs exactly the input documents, in
order, each with the embedding its text maps to. -/
theorem embedAll_ok (C : Collaborators) :
    ∀ (docs : List Document) (es : List (Document × List Int)),
      embedAll C docs = .ok es →
      es.map Prod.fst = docs ∧ ∀ e ∈ es, C.embed e.1.page_content = .ok e.2 := by
  intro docs
  induction docs with
  | nil =>
    intro es h
    simp only [embedAll, Except.ok.injEq] at h
    subst h
    simp
  | cons d ds ih =>
    intro es h
    simp only [embedAll] at h
    cases hv : C.embed d.page_content with
    | error e => simp [hv] at h
    | ok v =>
      simp only [hv] at h
      cases hr : embedAll C ds with
      | error e => simp [hr] at h
      | ok rest =>
        simp only [hr, Except.ok.injEq] at h
        subst h
        obtain ⟨hmap, hmem⟩ := ih rest hr
        refine ⟨by simp [hmap], ?_⟩
        intro e he
        rcases List.mem_cons.mp he with rfl | he'
        · exact hv
        · exact hmem e he'

/-- C4: from the index built over `docs`, a successful search returns
at most 4 chunks, each an element of the indexed chunk set, in
non-increasing order of similarity to the question's embedding; the
retrieval node queries with the fixed `k = 4` and leaves the index and
the chunk set in the state unchanged. -/
theorem search_relevant_chunks_topk (C : Collaborators)
    (docs : List Document) (q : String) (store : VectorStore)
    (res : List Document)
    (hstore : create_vector_store C docs = .ok store)
    (hsearch : search_relevant_chunks C store q 4 = .ok res) :
    res.length ≤ 4 ∧
    (∀ d ∈ res, d ∈ docs) ∧
    (∀ qv, C.embed q = .ok qv →
      List.Chain' (fun a b => simScore C qv b ≤ simScore C qv a) res) ∧
    (∀ st st' : GraphState, search_relevant_chunks_node C st = .ok st' →
      st'.vector_store = st.vector_store ∧ st'.chunks = st.chunks ∧
      st'.documents = st.documents) ∧
    (∀ (st : GraphState) (vs : VectorStore), st.vector_store = some vs →
      search_relevant_chunks_node C st =
        (search_relevant_chunks C vs st.question 4).map
          (fun rc => { st with relevant_chunks := rc })) := by
  obtain ⟨es, hes, hstore'⟩ := except_map_ok hstore
  obtain ⟨hmap, hmem⟩ := embedAll_ok C docs es hes
  obtain ⟨qv0, hqv0, hres⟩ := except_map_ok hsearch
  subst hstore'
  subst hres
  refine ⟨?_, ?_, ?_, ?_, ?_⟩
  · simp [List.length_take]
  · intro d hd
    have hd' := List.mem_of_mem_take hd
    simp only [List.mem_map] at hd'
    obtain ⟨e, he, rfl⟩ := hd'
    have hees : e ∈ es := (List.mem_insertionSort _).mp he
    rw [← hmap]
    exact List.mem_map_of_mem Prod.fst hees
  · intro qv hqv
    have hqveq : qv0 = qv := by
      rw [hqv0] at hqv
      injection hqv
    subst hqveq
    haveI : IsTotal (Document × List Int)
        (fun e1 e2 => dot qv0 e2.2 ≤ dot qv0 e1.2) :=
      ⟨fun a b => le_total (dot qv0 b.2) (dot qv0 a.2)⟩
    haveI : IsTrans (Document × List Int)
        (fun e1 e2 => dot qv0 e2.2 ≤ dot qv0 e1.2) :=
      ⟨fun _ _ _ hab hbc => le_trans hbc hab⟩
    have hsorted := List.sorted_insertionSort
      (fun e1 e2 : Document × List Int => dot qv0 e2.2 ≤ dot qv0 e1.2) es
    have hmem' : ∀ e ∈ es.insertionSort
        (fun e1 e2 => dot qv0 e2.2 ≤ dot qv0 e1.2),
        C.embed e.1.page_content = .ok e.2 :=
      fun e he => hmem e ((List.mem_insertionSort _).mp he)
    have hsorted' : (es.insertionSort
        (fun e1 e2 => dot qv0 e2.2 ≤ dot qv0 e1.2)).Pairwise
        (fun e1 e2 => simScore C qv0 e2.1 ≤ simScore C qv0 e1.1) := by
      refine List.Pairwise.imp_of_mem ?_ hsorted
      intro a b ha hb hab
      have hva := hmem' a ha
      have hvb := hmem' b hb
      simpa [simScore, hva, hvb] using hab
    have hmap' : ((es.insertionSort
        (fun e1 e2 => dot qv0 e2.2 ≤ dot qv0 e1.2)).map Prod.fst).Pairwise
        (fun a b => simScore C qv0 b ≤ simScore C qv0 a) :=
      hsorted'.map Prod.fst (fun _ _ hab => hab)
    have htake := hmap'.sublist (List.take_sublist 4 _)
    exact htake.chain'
  · intro st st' hnode
    cases hvs : st.vector_store with
    | none => simp [search_relevant_chunks_node, hvs] at hnode
    | some vs =>
      simp only [search_relevant_chunks_node, hvs] at hnode
      obtain ⟨rc, -, hst'⟩ := except_map_ok hnode
      subst hst'
      exact ⟨rfl, rfl, rfl⟩
  · intro st vs hvs
    simp only [search_relevant_chunks_node, hvs]

/-- Witness for C4 at a concrete input. -/
theorem search_relevant_chunks_topk_witness :
    ([⟨"a", []⟩, ⟨"b", []⟩] : List Document).length ≤ 4 :=
  (search_relevant_chunks_topk noopCollaborators [⟨"a", []⟩, ⟨"b", []⟩] "q"
    ⟨[(⟨"a", []⟩, []), (⟨"b", []⟩, [])]⟩ [⟨"a", []⟩, ⟨"b", []⟩] rfl rfl).1

/-- C8: an error in any of the five pipeline stages aborts the whole
run with that error (no stage swallows it), the orchestrator entry
point then returns the error instead of any partial answer, and the
batch entry point prints the message (prefixed `Error: `) and exits
with the non-zero status 1, printing no answer. -/
theorem pipeline_error_propagation (C : Collaborators) (e : String) :
    (∀ st : GraphState,
      (load_content_node C st = .error e → runPipeline C st = .error e) ∧
      (∀ st1, load_content_node C st = .ok st1 →
        split_documents_node st1 = .error e → runPipeline C st = .error e) ∧
      (∀ st1 st2, load_content_node C st = .ok st1 →
        split_documents_node st1 = .ok st2 →
        create_vector_store_node C st2 = .error e →
        runPipeline C st = .error e) ∧
      (∀ st1 st2 st3, load_content_node C st = .ok st1 →
        split_documents_node st1 = .ok st2 →
        create_vector_store_node C st2 = .ok st3 →
        search_relevant_chunks_node C st3 = .error e →
        runPipeline C st = .error e) ∧
      (∀ st1 st2 st3 st4, load_content_node C st = .ok st1 →
        split_documents_node st1 = .ok st2 →
        create_vector_store_node C st2 = .ok st3 →
        search_relevant_chunks_node C st3 = .ok st4 →
        answer_question_node_wrapper C st4 = .error e →
        runPipeline C st = .error e)) ∧
    (∀ (env : Env) (it content q : String) (cs co mal : Option Int),
      runPipeline C
        { input_type := it, content := content, question := q,
          documents := [], chunks := [], relevant_chunks := [],
          final_answer := "",
          chunk_size := cs.getD (env.CHUNK_SIZE.getD 500),
          chunk_overlap := co.getD (env.CHUNK_OVERLAP.getD 50),
          max_answer_length := mal, vector_store := none } = .error e →
      answer_question_with_graph C env it content q cs co mal = .error e) ∧
    (∀ (fileExists : String → Bool) (env : Env) (args : Args),
      ¬ (inputTypeOf args = "pdf" ∧ ¬ fileExists (contentOf args)) →
      ¬ (inputTypeOf args = "textfile" ∧ ¬ fileExists (contentOf args)) →
      env.OPENROUTER_API_KEY ≠ none →
      answer_question_with_graph C env (inputTypeOf args) (contentOf args)
        args.question (some (resolveChunkSize args.chunk_size env))
        (some (resolveChunkOverlap args.chunk_overlap env))
        args.max_answer_length = .error e →
      mainRun C fileExists env args =
        ⟨1, none, some ("Error: " ++ e)⟩) := by
  refine ⟨?_, ?_, ?_⟩
  · intro st
    exact ⟨runPipeline_load_error C st e,
      fun st1 h1 h2 => runPipeline_split_error C st st1 e h1 h2,
      fun st1 st2 h1 h2 h3 => runPipeline_index_error C st st1 st2 e h1 h2 h3,
      fun st1 st2 st3 h1 h2 h3 h4 =>
        runPipeline_search_error C st st1 st2 st3 e h1 h2 h3 h4,
      fun st1 st2 st3 st4 h1 h2 h3 h4 h5 =>
        runPipeline_answer_error C st st1 st2 st3 st4 e h1 h2 h3 h4 h5⟩
  · intro env it content q cs co mal h
    rw [answer_question_with_graph, h]
    rfl
  · intro fileExists env args h1 h2 h3 h4
    rw [mainRun, if_neg h1, if_neg h2, if_neg h3, h4]

/-- Witness for C8 at a concrete input: a failing web loader makes the
batch entry point exit 1 with the loader's error, printing no answer. -/
theorem pipeline_error_propagation_witness :
    mainRun
      ⟨fun _ => .error "boom", fun _ => .ok [], fun _ => .ok [],
        fun _ => .ok [], fun s => .ok s⟩
      (fun _ => true) ⟨none, none, some "key"⟩
      ⟨some "u", none, none, none, "q", none, none, none⟩ =
      ⟨1, none, some ("Error: " ++ "Failed to load web content from u: boom")⟩ :=
  (pipeline_error_propagation
    ⟨fun _ => .error "boom", fun _ => .ok [], fun _ => .ok [],
      fun _ => .ok [], fun s => .ok s⟩
    "Failed to load web content from u: boom").2.2
    (fun _ => true) ⟨none, none, some "key"⟩
    ⟨some "u", none, none, none, "q", none, none, none⟩
    (by decide) (by decide) (by decide) rfl

end QA
